import Mathlib

/-!
Shallow embedding of the Loopera/Conaltura WhatsApp bot (`main.py`):
the Redis-backed session store adapter, the language heuristic, the two
webhook endpoints, and the background message dispatcher.  External HTTP
services (Groq chat/Whisper/TTS, Google TTS, the WhatsApp Cloud API) are
modelled by an environment of oracle responses; the dispatcher is embedded
in a monad that records an effect trace, threads the session store, and
carries Python exceptions explicitly.
-/

namespace Loopera

/-- One conversation turn, a dict `\x7b"role": r, "content": c\x7d` in `main.py`. -/
structure Msg where
  role : String
  content : String
deriving DecidableEq

/-- The Redis keyspace: a key maps to the stored turn list together with the
expiry (in seconds) it was set with.  `json.dumps`/`json.loads` round-trip the
turn list, so the serialized value is modelled by the list itself. -/
def Store : Type := String → Option (List Msg × Nat)

/-- Redis `SETEX key ttl value`. -/
def setStore (s : Store) (k : String) (v : List Msg × Nat) : Store :=
  fun q => if q = k then some v else s q

/-- Python slice `l[-n:]` on a list. -/
def pyLastN (n : Nat) (l : List Msg) : List Msg :=
  l.drop (l.length - n)

/-- Embeds `get_conversation_history` of `main.py`: returns `[]` when the
Redis client is absent (`conn = false`), when the stored value is missing,
or when the `try` body raises (`except: return []`, flag `raises`). -/
def get_conversation_history (conn raises : Bool) (store : Store) (phone : String) :
    List Msg :=
  if !conn then []
  else if raises then []
  else
    match store ("conv:" ++ phone) with
    | some (l, _) => l
    | none => []

/-- Embeds `save_conversation` of `main.py`: a no-op when the Redis client is
absent or when `setex` raises (`except: pass`); otherwise stores
`history[-20:]` under `conv:<phone>` with expiry 86400 seconds. -/
def save_conversation (conn raises : Bool) (store : Store) (phone : String)
    (history : List Msg) : Store :=
  if !conn then store
  else if raises then store
  else setStore store ("conv:" ++ phone) (pyLastN 20 history, 86400)

/-- Python `str.lower` restricted to ASCII and the Latin-1 uppercase letters
(U+00C0 to U+00DE except the multiplication sign U+00D7), which covers the
Spanish alphabet that `detect_language` works over. -/
def pyLowerChar (c : Char) : Char :=
  if 65 ≤ c.toNat ∧ c.toNat ≤ 90 then Char.ofNat (c.toNat + 32)
  else if 192 ≤ c.toNat ∧ c.toNat ≤ 222 ∧ c.toNat ≠ 215 then Char.ofNat (c.toNat + 32)
  else c

/-- Python `text.lower()` under the `pyLowerChar` model. -/
def pyLower (s : String) : String := String.mk (s.toList.map pyLowerChar)

/-- Does the first list occur verbatim at the head of the second? -/
def charsMatchAt : List Char → List Char → Bool
  | [], _ => true
  | _ :: _, [] => false
  | a :: as, b :: bs => a == b && charsMatchAt as bs

/-- Substring occurrence on character lists. -/
def subIn (needle : List Char) : List Char → Bool
  | [] => needle.isEmpty
  | c :: t => charsMatchAt needle (c :: t) || subIn needle t

/-- Python `needle in haystack` on strings: substring containment. -/
def pyIn (needle hay : String) : Bool := subIn needle.toList hay.toList

/-- The fixed keyword list of `detect_language` in `main.py`. -/
def spanish_words : List String :=
  ["hola", "qué", "cómo", "gracias", "por favor", "necesito",
   "quiero", "buenos", "buenas", "está", "dónde", "cuándo",
   "cuánto", "puede", "tienen", "hacer", "ayuda", "información",
   "servicio", "precio", "cuenta", "bien", "mucho", "para"]

/-- Embeds `detect_language` of `main.py`: lowercase the text, count the
keywords occurring as substrings (`word in text_lower`), return `"es"` when
the count is at least 1 and `"en"` otherwise. -/
def detect_language (text : String) : String :=
  let text_lower := pyLower text
  let spanish_count := spanish_words.countP (fun word => pyIn word text_lower)
  if spanish_count ≥ 1 then "es" else "en"

/-- Python `s.startswith("[")`. -/
def startsBracket (s : String) : Bool :=
  match s.toList with
  | [] => false
  | c :: _ => c == '['

/-- Outcome of the `GET /webhook` handler: a 200 `PlainTextResponse` carrying
the challenge, the raised `HTTPException(status_code=403)`, or an unhandled
Python exception (which FastAPI turns into a 500 response). -/
inductive VerifyOutcome where
  | challengeOk (body : Option String)
  | forbidden
  | serverError
deriving DecidableEq

/-- Embeds `verify_webhook` of `main.py`.  The log line interpolates
`token[:10]`, which raises `TypeError` when `hub.verify_token` is absent
(`token is None`), before the subscribe/token comparison is reached. -/
def verify_webhook (secret : String) (mode token challenge : Option String) :
    VerifyOutcome :=
  match token with
  | none => .serverError
  | some tk =>
    if mode = some "subscribe" ∧ tk = secret then .challengeOk challenge
    else .forbidden

/-- JSON values: the shape of a parsed webhook POST body. -/
inductive J where
  | null
  | boolean (b : Bool)
  | num (n : Int)
  | str (s : String)
  | arr (elems : List J)
  | obj (fields : List (String × J))

/-- First value bound to a key in a JSON object's field list. -/
def jLookup : List (String × J) → String → Option J
  | [], _ => none
  | (k, v) :: rest, key => if k = key then some v else jLookup rest key

/-- Python `d.get(key, default)`: only dicts have `.get`; on any other value
the attribute lookup raises `AttributeError`. -/
def pyGet (v : J) (key : String) (dflt : J) : Except Unit J :=
  match v with
  | .obj fields => .ok ((jLookup fields key).getD dflt)
  | _ => .error ()

/-- Python `d.get(key)` (default `None`). -/
def pyGet1 (v : J) (key : String) : Except Unit J := pyGet v key .null

/-- Python `v[0]`: first element of a list, first character of a nonempty
string; raises (`IndexError`, `KeyError` or `TypeError`) otherwise. -/
def pyIndex0 (v : J) : Except Unit J :=
  match v with
  | .arr (x :: _) => .ok x
  | .str s =>
    match s.toList with
    | c :: _ => .ok (.str (String.mk [c]))
    | [] => .error ()
  | _ => .error ()

/-- Python truthiness of a JSON value. -/
def pyTruthy : J → Bool
  | .null => false
  | .boolean b => b
  | .num n => n != 0
  | .str s => s != ""
  | .arr elems => !elems.isEmpty
  | .obj fields => !fields.isEmpty

/-- The extraction chain of `receive_webhook` up to `messages`:
`body.get("entry", [\x7b\x7d])[0]`, then `.get("changes", [\x7b\x7d])[0]`,
then `.get("value", \x7b\x7d)`, then `.get("messages", [])`. -/
def extract_messages (body : J) : Except Unit J := do
  let entry ← pyIndex0 (← pyGet body "entry" (.arr [.obj []]))
  let changes ← pyIndex0 (← pyGet entry "changes" (.arr [.obj []]))
  let value ← pyGet changes "value" (.obj [])
  pyGet value "messages" (.arr [])

/-- The arguments `receive_webhook` hands to `background_tasks.add_task`. -/
structure TaskArgs where
  phone : J
  message : J
  message_type : J
  message_id : J

/-- The `try` body of `receive_webhook` after JSON parsing: `none` when the
extracted `messages` is falsy (`if not messages`), otherwise the scheduled
task's arguments. -/
def extract_task (body : J) : Except Unit (Option TaskArgs) := do
  let messages ← extract_messages body
  if pyTruthy messages then do
    let message ← pyIndex0 messages
    let phone ← pyGet1 message "from"
    let mid ← pyGet1 message "id"
    let mtype ← pyGet1 message "type"
    pure (some ⟨phone, message, mtype, mid⟩)
  else
    pure none

/-- Embeds `receive_webhook` of `main.py`; `parsed` is the outcome of
`await request.json()`.  The handler always acknowledges with status `"ok"`;
it schedules a background task only when a truthy `messages` entry was
extracted; any exception is caught (`except Exception`) and the
acknowledgement is still returned. -/
def receive_webhook (parsed : Except Unit J) : String × Option TaskArgs :=
  match parsed with
  | .error _ => ("ok", none)
  | .ok body =>
    match extract_task body with
    | .error _ => ("ok", none)
    | .ok t => ("ok", t)

end Loopera

namespace Loopera

/-- Raw media bytes, abstracted. -/
abbrev Bytes := List Nat

/-- The fixed system prompt of `chat_completion` in `main.py`, verbatim. -/
def system_prompt : String := "Eres \"Cami\", el Asesor Virtual Inteligente de Conaltura Construcción y Vivienda S.A.S.\n\n## IDENTIDAD\n- Empresa con +35 años de trayectoria\n- Certificada como Empresa B (B-Corp) - compromiso ético y ambiental\n- Estrategia VIO: Visión, Innovación, Oportunidad en Sostenibilidad\n- Certificaciones EDGE y LEED = ahorro en facturas de servicios\n- +600 colaboradores, +3,000 empleos indirectos\n\n## TONO DE VOZ\n- Profesional pero cercano y empático\n- La compra de vivienda es estresante, sé comprensivo\n- Usa emojis moderadamente: 🏡 🌿 📍 ✨\n- Tutea al usuario (es Colombia)\n- Respuestas concisas (máximo 4 oraciones por mensaje)\n\n## OBJETIVOS\n1. PERFILAR: ¿Busca vivienda para vivir, invertir, o escribe desde el exterior?\n2. ASESORAR: Resolver dudas sobre proyectos, precios, subsidios\n3. CONVERTIR: Lograr que agende visita o deje datos (Nombre, Celular, Email)\n4. EDUCAR: Explicar beneficios de sostenibilidad y proceso fiduciario\n\n## INVENTARIO 2025\n\n### VIVIENDA VIS (Interés Social - Aplican Subsidios)\n| Proyecto | Ciudad | Desde |\n|----------|--------|-------|\n| Azzuri | La Estrella | $255M |\n| Campura | Medellín | $206M |\n| Mosaico | Medellín | Tope VIS |\n| Venti | Tocancipá | Tope VIS |\n| Zuá | Bogotá | Tope VIS |\n| Almendro | Fontibón, Bogotá | $150M+ |\n| Amara | Cali | $236M |\n\n### VIVIENDA NO VIS (Sin subsidio, mayor área)\n| Proyecto | Ciudad | Área m² | Desde |\n|----------|--------|---------|-------|\n| Bora | Bello | 56-63 | $298M |\n| Catalana | Medellín | 61-77 | $472M |\n| Crista | Medellín | 75-88 | $729M |\n| Foresta | Envigado | 61-75 | $502M (Certificación EDGE) |\n| Polanco | Envigado | 51-110 | $521M |\n| Torres del Campo | Rionegro | 60-62 | $434M |\n| Canarias | Cajicá | 65 | $325M |\n\n### INVERSIÓN/LUJO (Costa Caribe)\n| Proyecto | Ciudad | Área m² | Desde | Especial |\n|----------|--------|---------|-------|----------|\n| Coralia | Cartagena | 73-88 | $581M | Licencia turística (Airbnb) |\n| Diporto | Cartagena | 87-97 | $748M | Vista al mar, muelle privado |\n\n## SUBSIDIOS (Solo para VIS)\n\n### Mi Casa Ya (Nacional)\n- Requisito: Ingresos familiares < 4 SMMLV (~$5.7M)\n- Requiere Sisbén A1 a D20\n- Montos: 20-30 SMMLV ($28M - $42M aprox)\n\n### Subsidios Regionales (SE PUEDEN SUMAR)\n- Medellín (Isvimed): $13M-$15M adicionales. Requiere 6 años viviendo en Medellín\n- Bogotá: \"Mi Casa en Bogotá\" 10-30 SMMLV adicionales\n- Barranquilla: \"Mi Techo Propio\" hasta 30 SMMLV\n- Cali: \"Casa Mía\" hasta 30 SMMLV. Requiere 5 años en Cali\n\n### Cajas de Compensación\n- Para ingresos < 2 SMMLV\n- Se suma con Mi Casa Ya (Concurrencia) = hasta 50 SMMLV total\n\n## PROCESO DE COMPRA\n\n1. SEPARACIÓN: Pago en línea (PSE/Wompi). Monto varía según proyecto ($500K - $2M)\n2. VINCULACIÓN FIDUCIARIA: El dinero va a Alianza Fiduciaria (no a Conaltura directo) = SEGURIDAD\n3. CUOTA INICIAL: 30% del valor, pagado en cuotas durante construcción\n4. CRÉDITO HIPOTECARIO: 70% restante, contra entrega\n\n## COLOMBIANOS EN EL EXTERIOR\n- Necesitan APODERADO en Colombia (familiar/amigo) para firmar\n- El inmueble queda a nombre del comprador, no del apoderado\n- Divisas deben pasar por Comisionista de Bolsa (no giros directos)\n- Documentos: W9/W8 BEN (USA), carta laboral, extractos bancarios 3 meses\n\n## SCRIPTS DE RESPUESTA\n\n### Saludo\n\"¡Hola! 👋 Bienvenido a Conaltura. Soy Cami, tu asesora virtual. Llevamos +35 años construyendo hogares sostenibles en Colombia 🏡🌿\n\n¿Estás buscando vivienda para vivir, para invertir, o nos escribes desde el exterior?\"\n\n### Si pregunta por subsidios\n\"¡Claro! Aceptamos subsidios Mi Casa Ya en proyectos VIS como Azzuri, Venti y Amara.\n\nPara aplicar, tus ingresos familiares no deben superar $5.7 millones. ¿Cumples con este requisito? Así te asesoro mejor 💰\"\n\n### Si es inversionista o menciona Airbnb/renta\n\"Para inversión te recomiendo Coralia en Cartagena 🏖️ Tiene licencia turística para rentas cortas tipo Airbnb. También Almendro en Bogotá por su cercanía al aeropuerto.\n\n¿Te envío más información de alguno?\"\n\n### Si escribe desde el exterior\n\"¡Excelente! Tenemos plan especial para colombianos en el exterior 🌍\n\nSolo necesitas un apoderado (familiar/amigo) en Colombia para firmar, pero el inmueble queda 100% a TU nombre.\n\n¿Te interesa Medellín, Bogotá o la Costa?\"\n\n### Si pregunta precios específicos\nUsa la tabla de inventario. Si no tienes el dato exacto:\n\"El precio exacto depende del piso y la vista. Te puedo conectar con un asesor para cotización personalizada. ¿Me compartes tu WhatsApp?\"\n\n### Para cerrar/agendar\n\"Me encantaría que conocieras el proyecto en persona. ¿Qué día te queda bien para visitar la sala de ventas? 📅\n\nTambién podemos hacer videollamada si estás lejos.\"\n\n### Si hay queja o problema\n\"Entiendo tu inquietud y lamento el inconveniente. Para darte una solución concreta, por favor escribe a experienciadelcliente@conaltura.com o al formulario PQRS.\n\n¿Hay algo más en lo que pueda ayudarte?\"\n\n## INFORMACIÓN DE CONTACTO\n- Medellín: (604) 266 22 77 - Calle 5A #39-194, Piso 5, Torre Dinners\n- Bogotá: (601) 432 1600 - Carrera 19 #82-85, Of 704, Country Office\n- Barranquilla: 312 469 0731 - Carrera 51B No. 80-58, Of 1006\n\n## REGLAS ESTRICTAS\n1. NUNCA inventes precios. Si no sabes, da rango o pide conectar con asesor\n2. NUNCA garantices subsidios - dependen del gobierno\n3. SIEMPRE intenta capturar: Nombre, Celular, Ciudad de interés\n4. Si preguntan por garantías: 10 años estructura, 1 año acabados\n5. Portal propietarios: site.conaltura.com/mi-hogar/\n\n## IDIOMA\n- Solo español colombiano\n- Si escriben en inglés, responde en español pero amablemente"

/-- Observable external effects of one run of the dispatcher: each constructor
is one HTTP request (or Redis command) the Python code issues. -/
inductive Effect where
  | markRead (message_id : String)
  | downloadMedia (media_id : String)
  | transcribeCall
  | chatCall (messages : List Msg)
  | visionCall (caption : String) (history : List Msg)
  | ttsGoogle (text : String)
  | ttsPlay (text : String)
  | sendText (dest : String) (body : String)
  | sendAudio (dest : String)
  | redisGet (key : String)
  | redisSet (key : String) (value : List Msg) (ttl : Nat)
deriving DecidableEq

/-- Oracle for everything outside the process: configuration flags and the
response (or transport exception) of each external call. -/
structure Env where
  /-- whether `GROQ_API_KEY` is set -/
  groqKey : Bool
  /-- whether `get_google_tts_client()` returns a client -/
  googleClient : Bool
  /-- whether `redis_client` is set (connected at startup) -/
  redisConn : Bool
  /-- whether the Redis `get` round trip raises -/
  redisGetRaises : Bool
  /-- whether the Redis `setex` round trip raises -/
  redisSetRaises : Bool
  /-- `download_media`: transport exception, or `none` (non-200 / missing
  url), or the downloaded bytes -/
  downloadResult : Except Unit (Option Bytes)
  /-- `transcribe_audio` body: exception (e.g. ffmpeg timeout), or the
  returned text, including the bracketed placeholder strings -/
  transcribeResult : Except Unit String
  /-- chat completions endpoint: exception, or `none` (non-200, mapped to the
  fixed apology), or the returned assistant content -/
  chatResult : Except Unit (Option String)
  /-- vision endpoint: exception, or `none` (non-200), or content -/
  visionResult : Except Unit (Option String)
  /-- Google TTS: the whole Python body is under `try/except`, so it never
  raises; `none` or synthesized bytes -/
  googleTTS : Option Bytes
  /-- PlayAI TTS: also fully caught in Python; `none` or bytes -/
  playTTS : Option Bytes
  /-- `send_whatsapp_audio`: exception, or its boolean success result -/
  sendAudioResult : Except Unit Bool
  /-- whether the n-th `send_whatsapp_message` of the run raises a transport
  exception (a non-200 response is only logged, it does not raise) -/
  sendTextRaises : Nat → Bool

/-- The dispatcher's monad: an effect trace and the Redis store are threaded
through, and Python exceptions are carried explicitly. -/
def M (α : Type) : Type := List Effect → Store → List Effect × Store × Except Unit α

def mPure {α : Type} (a : α) : M α := fun t s => (t, s, .ok a)

def mBind {α β : Type} (x : M α) (f : α → M β) : M β := fun t s =>
  match x t s with
  | (t', s', .ok a) => f a t' s'
  | (t', s', .error e) => (t', s', .error e)

instance : Monad M where
  pure := mPure
  bind := mBind

/-- Number of `sendText` attempts already in the trace. -/
def countSends (t : List Effect) : Nat :=
  t.countP fun e => match e with
    | .sendText _ _ => true
    | _ => false

/-- Embeds `mark_as_read` of `main.py`: one best-effort `POST`; its body is
under `try/except: pass`, so it never raises. -/
def mark_as_read (_env : Env) (message_id : String) : M Unit := fun t s =>
  (t ++ [.markRead message_id], s, .ok ())

/-- Embeds `send_whatsapp_message` of `main.py`: records the send attempt and
raises exactly when the oracle says this (n-th) send's transport fails. -/
def send_whatsapp_message (env : Env) (dest text : String) : M Unit := fun t s =>
  let t' := t ++ [.sendText dest text]
  if env.sendTextRaises (countSends t) then (t', s, .error ()) else (t', s, .ok ())

/-- Embeds `download_media` of `main.py`: two `GET`s with no `try`, so a
transport exception propagates; otherwise `none` or the bytes. -/
def download_media (env : Env) (media_id : String) : M (Option Bytes) := fun t s =>
  let t' := t ++ [.downloadMedia media_id]
  match env.downloadResult with
  | .error e => (t', s, .error e)
  | .ok r => (t', s, .ok r)

/-- Embeds `transcribe_audio` of `main.py`: without `GROQ_API_KEY` it returns
a placeholder before any external call; otherwise ffmpeg plus the Whisper
endpoint run with no `except`, so an exception propagates, and the non-200
and ffmpeg-failure paths return bracketed placeholder strings (all returned
strings are covered by the oracle). -/
def transcribe_audio (env : Env) : M String :=
  if !env.groqKey then mPure "[Audio recibido - Groq no configurado]"
  else fun t s =>
    let t' := t ++ [.transcribeCall]
    match env.transcribeResult with
    | .error e => (t', s, .error e)
    | .ok txt => (t', s, .ok txt)

/-- Embeds `chat_completion` of `main.py`: without `GROQ_API_KEY` a canned
string, no HTTP; otherwise one `POST` (no `try`) whose message list is the
fixed system prompt, then the whole history, then the new user message; a
non-200 response maps to the fixed apology text. -/
def chat_completion (env : Env) (user_message : String) (history : List Msg) : M String :=
  if !env.groqKey then mPure "Bot configurado. Falta GROQ_API_KEY para respuestas inteligentes."
  else fun t s =>
    let messages := Msg.mk "system" system_prompt :: (history ++ [Msg.mk "user" user_message])
    let t' := t ++ [.chatCall messages]
    match env.chatResult with
    | .error e => (t', s, .error e)
    | .ok (some content) => (t', s, .ok content)
    | .ok none => (t', s, .ok "Disculpa, tuve un problema. ¿Podrías repetir?")

/-- Embeds `analyze_image` of `main.py`: without `GROQ_API_KEY` a canned
string; otherwise one `POST` (no `try`) taking the caption and the last 6
history turns; non-200 maps to a fixed apology. -/
def analyze_image (env : Env) (caption : String) (history : List Msg) : M String :=
  if !env.groqKey then mPure "No puedo analizar imágenes sin GROQ_API_KEY configurado."
  else fun t s =>
    let t' := t ++ [.visionCall caption (history.drop (history.length - 6))]
    match env.visionResult with
    | .error e => (t', s, .error e)
    | .ok (some content) => (t', s, .ok content)
    | .ok none => (t', s, .ok "No pude analizar la imagen. ¿Podrías enviarla de nuevo?")

/-- Embeds `google_text_to_speech` of `main.py`: wholly under `try/except`,
returns `none` when no client is configured or on any failure. -/
def google_text_to_speech (env : Env) (text : String) : M (Option Bytes) :=
  if !env.googleClient then mPure none
  else fun t s => (t ++ [.ttsGoogle text], s, .ok env.googleTTS)

/-- Embeds `text_to_speech` (PlayAI) of `main.py`: `none` without
`GROQ_API_KEY` or for Spanish; otherwise the oracle's bytes or `none`, the
body being wholly under `try/except`. -/
def text_to_speech (env : Env) (text : String) (language : String) : M (Option Bytes) :=
  if !env.groqKey then mPure none
  else if language == "es" then mPure none
  else fun t s => (t ++ [.ttsPlay text], s, .ok env.playTTS)

/-- Embeds `send_whatsapp_audio` of `main.py`: upload plus send with no
`try`, so a transport exception propagates; otherwise a success boolean. -/
def send_whatsapp_audio (env : Env) (dest : String) : M Bool := fun t s =>
  let t' := t ++ [.sendAudio dest]
  match env.sendAudioResult with
  | .error e => (t', s, .error e)
  | .ok b => (t', s, .ok b)

/-- Monadic wrapper of `get_conversation_history`: no Redis command at all
when the client is absent; never raises. -/
def get_conversation_historyM (env : Env) (phone : String) : M (List Msg) := fun t s =>
  if !env.redisConn then (t, s, .ok [])
  else (t ++ [.redisGet ("conv:" ++ phone)], s,
        .ok (get_conversation_history env.redisConn env.redisGetRaises s phone))

/-- Monadic wrapper of `save_conversation`: no Redis command when the client
is absent; records the attempted `SETEX` and updates the store through the
pure `save_conversation`; never raises. -/
def save_conversationM (env : Env) (phone : String) (history : List Msg) : M Unit := fun t s =>
  if !env.redisConn then (t, s, .ok ())
  else (t ++ [.redisSet ("conv:" ++ phone) (pyLastN 20 history) 86400],
        save_conversation env.redisConn env.redisSetRaises s phone history, .ok ())


/-- The fields of the inbound `message` dict that `process_message` reads;
an absent dict entry is `none`. -/
structure InMessage where
  textBody : Option String
  audioId : Option String
  imageId : Option String
  imageCaption : Option String
  imageMime : Option String

/-- Python truthiness of an optional string (`None` and `""` are falsy). -/
def strTruthy : Option String → Bool
  | none => false
  | some s => s != ""

/-- Python truthiness of optional bytes (`None` and `b""` are falsy). -/
def bytesTruthy : Option Bytes → Bool
  | none => false
  | some b => !b.isEmpty

/-- The common tail of `process_message` for the text and unknown-modality
paths: reject an empty body, else load history, complete, send the reply and
persist the new turn pair. -/
def textPipeline (env : Env) (phone user_text : String) : M Unit := do
  if user_text == "" then
    send_whatsapp_message env phone "No pude procesar ese mensaje. ¿Podrías escribirme?"
  else do
    let history ← get_conversation_historyM env phone
    let response ← chat_completion env user_text history
    send_whatsapp_message env phone response
    save_conversationM env phone
      (history ++ [Msg.mk "user" user_text, Msg.mk "assistant" response])

/-- Steps 3 to 5 of the audio path of `process_message`, after the chat
completion returned `response`: synthesize voice by the detected language of
the transcription, send the voice note (falling back to text when its
delivery reports failure) or the text, then persist the turn pair. -/
def audioReply (env : Env) (phone user_text : String) (history : List Msg)
    (response : String) : M Unit := do
  let language := detect_language user_text
  let audio_response ← if language == "es"
    then google_text_to_speech env response
    else text_to_speech env response "en"
  match audio_response with
  | some _ => do
    let success ← send_whatsapp_audio env phone
    if !success then send_whatsapp_message env phone response else pure ()
  | none => send_whatsapp_message env phone response
  save_conversationM env phone
    (history ++ [Msg.mk "user" ("[Audio] " ++ user_text), Msg.mk "assistant" response])

/-- The audio path of `process_message` after nonempty bytes were downloaded:
transcribe; an empty or bracket-opening transcription gets the fixed apology
and stops; otherwise load history, complete, and reply via `audioReply`. -/
def audioPipeline (env : Env) (phone : String) : M Unit := do
  let user_text ← transcribe_audio env
  if user_text == "" || startsBracket user_text then
    send_whatsapp_message env phone "No pude entender tu mensaje de voz. ¿Podrías repetirlo?"
  else do
    let history ← get_conversation_historyM env phone
    let response ← chat_completion env user_text history
    audioReply env phone user_text history response

/-- The image path of `process_message` after nonempty bytes were downloaded:
analyze with caption and history, send the text reply, persist the turn pair
with the descriptive user text. -/
def imagePipeline (env : Env) (phone caption : String) : M Unit := do
  let history ← get_conversation_historyM env phone
  let response ← analyze_image env caption history
  send_whatsapp_message env phone response
  let user_text_for_history :=
    "[Imagen enviada]" ++ (if caption != "" then ": " ++ caption else "")
  save_conversationM env phone
    (history ++ [Msg.mk "user" user_text_for_history, Msg.mk "assistant" response])

/-- The `try` body of `process_message` in `main.py`: mark as read, branch on
the modality, and run the matching pipeline. -/
def process_message_body (env : Env) (phone : String) (message : InMessage)
    (message_type message_id : String) : M Unit := do
  mark_as_read env message_id
  if message_type == "text" then
    textPipeline env phone ((message.textBody).getD "")
  else if message_type == "audio" then
    if strTruthy message.audioId then do
      let audio_bytes ← download_media env ((message.audioId).getD "")
      if bytesTruthy audio_bytes then
        audioPipeline env phone
      else
        send_whatsapp_message env phone "No pude descargar tu mensaje de voz. ¿Podrías enviarlo de nuevo?"
    else
      send_whatsapp_message env phone "No pude procesar tu mensaje de voz. ¿Podrías enviarlo de nuevo?"
  else if message_type == "image" then
    if strTruthy message.imageId then do
      let image_bytes ← download_media env ((message.imageId).getD "")
      if bytesTruthy image_bytes then
        imagePipeline env phone ((message.imageCaption).getD "")
      else
        send_whatsapp_message env phone "No pude descargar la imagen. ¿Podrías enviarla de nuevo?"
    else
      send_whatsapp_message env phone "No pude procesar la imagen. ¿Podrías enviarla de nuevo?"
  else
    textPipeline env phone ("[" ++ message_type ++ " recibido]")

/-- Embeds `process_message` of `main.py`: the whole body runs under
`try/except Exception`; on any exception one fixed fallback text send is
attempted, whose own failure is swallowed (`except: pass`), so the function
always returns normally. -/
def process_message (env : Env) (phone : String) (message : InMessage)
    (message_type message_id : String) : M Unit := fun t s =>
  match process_message_body env phone message message_type message_id t s with
  | (t', s', .ok ()) => (t', s', .ok ())
  | (t', s', .error _) =>
    (t' ++ [.sendText phone "Disculpa, tuve un problema. ¿Podrías intentar de nuevo?"],
     s', .ok ())

/-- The text messages sent during a run: recipient and body of every
`send_whatsapp_message` attempt, in order. -/
def sentTexts (t : List Effect) : List (String × String) :=
  t.filterMap fun e => match e with
    | .sendText dest body => some (dest, body)
    | _ => none

/-- The chat-completion HTTP calls of a run, each with its message list. -/
def chatCalls (t : List Effect) : List (List Msg) :=
  t.filterMap fun e => match e with
    | .chatCall messages => some messages
    | _ => none

/-- The subtrace of chat-completion calls and text sends, keeping order. -/
def chatOrSend (t : List Effect) : List Effect :=
  t.filter fun e => match e with
    | .chatCall _ => true
    | .sendText _ _ => true
    | _ => false

/-- A dispatcher step keeps every effect already in the trace (each embedded
primitive only appends). -/
def keepsTrace {α : Type} (x : M α) : Prop :=
  ∀ t s e, e ∈ t → e ∈ (x t s).1

/-- The empty session store, for concrete instantiations. -/
def sEmpty : Store := fun _ => none

/-- A concrete inbound text message with body "Hola". -/
def mT : InMessage := ⟨some "Hola", none, none, none, none⟩

/-- A concrete inbound audio message with media id "media9". -/
def mA : InMessage := ⟨none, some "media9", none, none, none⟩

/-- A concrete environment: Groq configured, Redis absent, media download
resolving to `none`, chat completion succeeding, no transport exceptions. -/
def envT : Env :=
  ⟨true, false, false, false, false, Except.ok none, Except.ok "",
   Except.ok (some "Con gusto te ayudo"), Except.ok none, none, none,
   Except.ok true, fun _ => false⟩

/-- A concrete environment whose media download yields one byte and whose
transcription returns the bracketed Whisper error placeholder. -/
def envB : Env :=
  ⟨true, false, false, false, false, Except.ok (some [1]),
   Except.ok "[Error transcribiendo audio]", Except.ok (some "ok"),
   Except.ok none, none, none, Except.ok true, fun _ => false⟩

/-- A concrete 25-turn history, longer than the retention window. -/
def histW : List Msg := List.replicate 25 (Msg.mk "user" "hola")

/-! ## Helper lemmas -/

theorem bind_is_mBind {α β : Type} (x : M α) (f : α → M β) : x >>= f = mBind x f := rfl

theorem pure_is_mPure {α : Type} (a : α) : (pure a : M α) = mPure a := rfl

theorem keepsTrace_mPure {α : Type} (a : α) : keepsTrace (mPure a) := by
  intro t s e he; exact he

theorem keepsTrace_mBind {α β : Type} {x : M α} {f : α → M β}
    (hx : keepsTrace x) (hf : ∀ a, keepsTrace (f a)) : keepsTrace (mBind x f) := by
  intro t s e he
  have h1 := hx t s e he
  unfold mBind
  rcases hxts : x t s with ⟨t1, s1, r⟩
  rw [hxts] at h1
  cases r with
  | ok a => exact hf a t1 s1 e h1
  | error err => exact h1

theorem keepsTrace_ite (c : Prop) [Decidable c] {α : Type} {x y : M α}
    (hx : keepsTrace x) (hy : keepsTrace y) : keepsTrace (if c then x else y) := by
  by_cases h : c <;> simp [h] <;> assumption

theorem keepsTrace_send (env : Env) (dest text : String) :
    keepsTrace (send_whatsapp_message env dest text) := by
  intro t s e he
  unfold send_whatsapp_message
  by_cases h : env.sendTextRaises (countSends t) <;> simp [h, he]

theorem keepsTrace_sendAudio (env : Env) (dest : String) :
    keepsTrace (send_whatsapp_audio env dest) := by
  intro t s e he
  unfold send_whatsapp_audio
  rcases env.sendAudioResult with err | b <;> simp [he]

theorem keepsTrace_gtts (env : Env) (text : String) :
    keepsTrace (google_text_to_speech env text) := by
  intro t s e he
  unfold google_text_to_speech
  by_cases h : env.googleClient <;> simp [h, he, mPure]

theorem keepsTrace_ptts (env : Env) (text language : String) :
    keepsTrace (text_to_speech env text language) := by
  intro t s e he
  unfold text_to_speech
  by_cases h : env.groqKey <;> by_cases h2 : language == "es" <;>
    simp [h, h2, he, mPure]

theorem keepsTrace_save (env : Env) (phone : String) (history : List Msg) :
    keepsTrace (save_conversationM env phone history) := by
  intro t s e he
  unfold save_conversationM
  by_cases h : env.redisConn <;> simp [h, he]

theorem keepsTrace_audioReply (env : Env) (phone user_text : String)
    (history : List Msg) (response : String) :
    keepsTrace (audioReply env phone user_text history response) := by
  unfold audioReply
  simp only [bind_is_mBind, pure_is_mPure]
  refine keepsTrace_ite _ (keepsTrace_mBind (keepsTrace_gtts env response) ?_)
      (keepsTrace_mBind (keepsTrace_ptts env response "en") ?_)
  all_goals
    intro a
    cases a with
    | some v =>
      refine keepsTrace_mBind (keepsTrace_sendAudio env phone) ?_
      intro success
      refine keepsTrace_ite _ ?_ ?_
      · exact keepsTrace_mBind (keepsTrace_send env phone response)
          (fun _ => keepsTrace_save env phone _)
      · exact keepsTrace_mBind (keepsTrace_mPure ())
          (fun _ => keepsTrace_save env phone _)
    | none =>
      exact keepsTrace_mBind (keepsTrace_send env phone response)
        (fun _ => keepsTrace_save env phone _)

theorem chatCalls_ne_nil (msgs : List Msg) {t : List Effect}
    (h : Effect.chatCall msgs ∈ t) : chatCalls t ≠ [] := by
  apply List.ne_nil_of_mem (a := msgs)
  exact List.mem_filterMap.mpr ⟨Effect.chatCall msgs, h, rfl⟩

theorem mem_process_message (env : Env) (phone : String) (m : InMessage)
    (mt mid : String) (t : List Effect) (s : Store) (e : Effect)
    (hmem : e ∈ (process_message_body env phone m mt mid t s).1) :
    e ∈ (process_message env phone m mt mid t s).1 := by
  unfold process_message
  rcases h : process_message_body env phone m mt mid t s with ⟨t1, s1, r⟩
  rw [h] at hmem
  cases r with
  | ok a => cases a; simp [h, hmem]
  | error err => simp [h, hmem]

theorem pyLastN_len (n : Nat) (l : List Msg) : (pyLastN n l).length ≤ n := by
  simp [pyLastN]
  omega

/-! ## Claims -/

/-- Claim C1: a save with the client present and no exception stores, under
`conv:<phone>` with the 86400-second (24-hour) expiry, exactly the serialized
history truncated to its last 20 entries (a suffix, so the oldest entries are
dropped first), and after any save (whatever the client or exception flags)
no key of the store holds more than 20 entries, given none did before. -/
theorem save_conversation_truncates_c1 (store : Store) (phone : String)
    (history : List Msg)
    (hstore : ∀ k l e, store k = some (l, e) → l.length ≤ 20) :
    (save_conversation true false store phone history) ("conv:" ++ phone)
        = some (pyLastN 20 history, 86400)
    ∧ (pyLastN 20 history).length ≤ 20
    ∧ pyLastN 20 history <:+ history
    ∧ (∀ conn raises k l e,
        (save_conversation conn raises store phone history) k = some (l, e) →
          l.length ≤ 20) := by
  refine ⟨by simp [save_conversation, setStore], pyLastN_len 20 history,
    List.drop_suffix _ _, ?_⟩
  intro conn raises k l e h
  cases conn with
  | false => exact hstore k l e (by simpa [save_conversation] using h)
  | true =>
    cases raises with
    | true => exact hstore k l e (by simpa [save_conversation] using h)
    | false =>
      simp only [save_conversation, setStore, Bool.not_true, Bool.false_eq_true,
        if_false] at h
      by_cases hk : k = "conv:" ++ phone
      · rw [if_pos hk] at h
        injection h with h2
        injection h2 with hl he
        subst hl
        exact pyLastN_len 20 history
      · rw [if_neg hk] at h
        exact hstore k l e h

/-- Witness for C1 at a concrete store, phone and 25-turn history. -/
theorem save_conversation_truncates_c1_witness :
    (save_conversation true false sEmpty "573001112233" histW) ("conv:" ++ "573001112233")
        = some (pyLastN 20 histW, 86400)
    ∧ (pyLastN 20 histW).length ≤ 20
    ∧ pyLastN 20 histW <:+ histW
    ∧ (∀ conn raises k l e,
        (save_conversation conn raises sEmpty "573001112233" histW) k = some (l, e) →
          l.length ≤ 20) :=
  save_conversation_truncates_c1 sEmpty "573001112233" histW
    (fun _ _ _ h => Option.noConfusion h)

/-- Claim C2: for an inbound text event with body "Hola" (Groq configured,
the completion returning content `c`, reply delivery not raising), the run's
chat-completion and send-text effects are exactly one chat call whose message
list is the fixed system prompt, then the loaded history for the sender in
order, then the user turn "Hola" appended last, followed by one send-text to
the sender carrying exactly `c`. -/
theorem process_text_hola_c2 (env : Env) (phone mid : String) (m : InMessage)
    (s : Store) (c : String)
    (hkey : env.groqKey = true)
    (hchat : env.chatResult = .ok (some c))
    (hsend : ∀ n, env.sendTextRaises n = false)
    (hbody : m.textBody = some "Hola") :
    chatOrSend (process_message env phone m "text" mid [] s).1
      = [Effect.chatCall (Msg.mk "system" system_prompt ::
          (get_conversation_history env.redisConn env.redisGetRaises s phone
            ++ [Msg.mk "user" "Hola"])),
         Effect.sendText phone c] := by
  cases hconn : env.redisConn <;>
  simp [process_message, process_message_body, textPipeline, mark_as_read,
        send_whatsapp_message, chat_completion, get_conversation_historyM,
        save_conversationM, get_conversation_history, bind_is_mBind, pure_is_mPure,
        mBind, mPure, hkey, hchat, hconn, hsend, hbody, countSends, chatOrSend]

/-- Witness for C2 at a concrete environment, sender and empty store. -/
theorem process_text_hola_c2_witness :
    chatOrSend (process_message envT "57300000" mT "text" "wamid.2" [] sEmpty).1
      = [Effect.chatCall (Msg.mk "system" system_prompt ::
          (get_conversation_history envT.redisConn envT.redisGetRaises sEmpty "57300000"
            ++ [Msg.mk "user" "Hola"])),
         Effect.sendText "57300000" "Con gusto te ayudo"] :=
  process_text_hola_c2 envT "57300000" "wamid.2" mT sEmpty "Con gusto te ayudo"
    rfl rfl (fun _ => rfl) rfl

/-- Claim C3 counterexample: a `GET /webhook` with `hub.mode=subscribe` and
`hub.challenge=123` but no `hub.verify_token` is "every other request" in the
claim's sense, yet it does not fail with the authorization-error status: the
handler's log line slices `token[:10]` on `None` and raises `TypeError`, so
the response is a 500 server error, not the 403. -/
theorem verify_webhook_absent_token_cex_c3 :
    verify_webhook "loopera-verify-2024" (some "subscribe") none (some "123")
      = VerifyOutcome.serverError
    ∧ VerifyOutcome.serverError ≠ VerifyOutcome.forbidden :=
  ⟨rfl, by decide⟩

/-- Claim C3 (amended): the challenge is returned verbatim with success iff
`hub.mode` is "subscribe" and `hub.verify_token` equals the configured
secret; every other request that carries a `hub.verify_token` fails with the
403 authorization error; a request with `hub.verify_token` absent instead
raises an unhandled `TypeError` (a 500 server error). -/
theorem verify_webhook_amended_c3 (secret : String)
    (mode token challenge : Option String) :
    (verify_webhook secret mode token challenge = .challengeOk challenge
      ↔ (mode = some "subscribe" ∧ token = some secret))
    ∧ (∀ tk, token = some tk → ¬(mode = some "subscribe" ∧ tk = secret) →
        verify_webhook secret mode token challenge = .forbidden)
    ∧ (token = none → verify_webhook secret mode token challenge = .serverError) := by
  cases token with
  | none => simp [verify_webhook]
  | some tk =>
    by_cases h : mode = some "subscribe" ∧ tk = secret
    · obtain ⟨h1, h2⟩ := h
      simp [verify_webhook, h1, h2]
    · have hv : verify_webhook secret mode (some tk) challenge = .forbidden := by
        simp [verify_webhook, h]
      refine ⟨?_, fun tk2 htk2 hn2 => hv, fun hn => by cases hn⟩
      rw [hv]
      constructor
      · intro hbad; exact VerifyOutcome.noConfusion hbad
      · intro hgood
        obtain ⟨h1, h2⟩ := hgood
        injection h2 with h3
        exact absurd ⟨h1, h3⟩ h

/-- Claim C4: every webhook POST is acknowledged with status "ok"; a body
whose extracted `messages` is falsy (a status callback) is acknowledged with
no background task; a body on which the extraction chain raises is
acknowledged with no background task; a request whose JSON parsing fails is
acknowledged with no background task. -/
theorem receive_webhook_ack_c4 :
    (∀ parsed, (receive_webhook parsed).1 = "ok")
    ∧ (∀ body ms, extract_messages body = .ok ms → pyTruthy ms = false →
        receive_webhook (.ok body) = ("ok", none))
    ∧ (∀ body, extract_task body = .error () → receive_webhook (.ok body) = ("ok", none))
    ∧ receive_webhook (.error ()) = ("ok", none) := by
  refine ⟨?_, ?_, ?_, rfl⟩
  · intro parsed
    rcases parsed with e | body
    · rfl
    · unfold receive_webhook
      rcases h : extract_task body with e | t <;> simp [h]
  · intro body ms h hf
    have ht : extract_task body = .ok none := by
      simp [extract_task, h, hf, Except.bind, Bind.bind, Pure.pure, Except.pure]
    simp [receive_webhook, ht]
  · intro body h
    simp [receive_webhook, h]

/-- Claim C5: for an audio event whose media download returns no bytes
(`None` or empty), with the apology delivery not raising, the run sends
exactly one text: the fixed download apology; it makes no chat-completion
call and leaves the session store unchanged. -/
theorem audio_download_fail_c5 (env : Env) (phone aid mid : String)
    (m : InMessage) (s : Store)
    (haid : m.audioId = some aid) (hne : aid ≠ "")
    (hdl : env.downloadResult = .ok none ∨ env.downloadResult = .ok (some []))
    (hsend : env.sendTextRaises 0 = false) :
    sentTexts (process_message env phone m "audio" mid [] s).1
      = [(phone, "No pude descargar tu mensaje de voz. ¿Podrías enviarlo de nuevo?")]
    ∧ chatCalls (process_message env phone m "audio" mid [] s).1 = []
    ∧ (process_message env phone m "audio" mid [] s).2.1 = s := by
  rcases hdl with h | h <;>
  simp [process_message, process_message_body, mark_as_read, strTruthy,
        download_media, bytesTruthy, send_whatsapp_message,
        bind_is_mBind, pure_is_mPure, mBind, mPure, haid, hne, h, hsend,
        countSends, sentTexts, chatCalls]

/-- Witness for C5 at a concrete environment whose download returns `None`. -/
theorem audio_download_fail_c5_witness :
    sentTexts (process_message envT "57300000" mA "audio" "wamid.5" [] sEmpty).1
      = [("57300000", "No pude descargar tu mensaje de voz. ¿Podrías enviarlo de nuevo?")]
    ∧ chatCalls (process_message envT "57300000" mA "audio" "wamid.5" [] sEmpty).1 = []
    ∧ (process_message envT "57300000" mA "audio" "wamid.5" [] sEmpty).2.1 = sEmpty :=
  audio_download_fail_c5 envT "57300000" "media9" "wamid.5" mA sEmpty
    rfl (by decide) (Or.inl rfl) rfl

/-- Claim C6: the top-level handler of the dispatcher catches everything:
for every environment (hence every combination of raising external calls)
and every inbound message, the run ends without an exception, and whenever
the body raised, the run is the body's trace extended by exactly one
attempted fixed fallback text send (whose own failure is swallowed). -/
theorem process_message_no_raise_c6 (env : Env) (phone mtype mid : String)
    (m : InMessage) (t : List Effect) (s : Store) :
    (process_message env phone m mtype mid t s).2.2 = Except.ok ()
    ∧ (∀ t1 s1 e,
        process_message_body env phone m mtype mid t s = (t1, s1, Except.error e) →
        process_message env phone m mtype mid t s
          = (t1 ++ [Effect.sendText phone "Disculpa, tuve un problema. ¿Podrías intentar de nuevo?"],
             s1, Except.ok ())) := by
  constructor
  · unfold process_message
    rcases h : process_message_body env phone m mtype mid t s with ⟨t1, s1, r⟩
    cases r with
    | ok a => cases a; simp [h]
    | error e => simp [h]
  · intro t1 s1 e h
    simp [process_message, h]

/-- Claim C7: with the session-store client absent, every history read
returns the empty list and every save returns the store unchanged, whatever
the exception flags; both embedded operations are total Lean functions, as
the Python bodies catch every exception. -/
theorem store_absent_noop_c7 (raisesG raisesS : Bool) (store : Store)
    (phone : String) (history : List Msg) :
    get_conversation_history false raisesG store phone = []
    ∧ save_conversation false raisesS store phone history = store :=
  ⟨rfl, rfl⟩

/-- Claim C8: for every input, the heuristic returns "es" iff at least one
fixed Spanish keyword occurs as a substring of the lowercased input, and
returns "en" otherwise; in particular "gracias por tu ayuda" classifies as
"es" and "thank you" as "en". -/
theorem detect_language_keyword_c8 :
    (∀ text : String,
      (detect_language text = "es" ↔ ∃ w ∈ spanish_words, pyIn w (pyLower text) = true)
      ∧ (detect_language text = "en" ↔ ¬ ∃ w ∈ spanish_words, pyIn w (pyLower text) = true))
    ∧ detect_language "gracias por tu ayuda" = "es"
    ∧ detect_language "thank you" = "en" := by
  refine ⟨fun text => ?_, by decide, by decide⟩
  have key : 0 < spanish_words.countP (fun w => pyIn w (pyLower text))
      ↔ ∃ w ∈ spanish_words, pyIn w (pyLower text) = true := List.countP_pos_iff
  by_cases h : spanish_words.countP (fun w => pyIn w (pyLower text)) ≥ 1
  · have hex := key.mp h
    simp [detect_language, h, hex]
  · have hnex : ¬ ∃ w ∈ spanish_words, pyIn w (pyLower text) = true := by
      intro hx; exact h (key.mpr hx)
    simp [detect_language, h, hnex]

/-- Claim C9: the keywords are matched as substrings, not whole words: the
English input "comparable" is classified "es" because it contains the
keyword "para", although no keyword equals the input word itself. -/
theorem detect_language_substring_c9 :
    detect_language "comparable" = "es"
    ∧ pyIn "para" (pyLower "comparable") = true
    ∧ ∀ w ∈ spanish_words, w ≠ "comparable" :=
  ⟨by decide, by decide, by decide⟩

/-- Claim C10: in the audio path (bytes downloaded, Groq configured,
transcription returning `txt`), the run makes a chat-completion call exactly
when `txt` is neither empty nor starts with "[": the no-chat-call outcome is
equivalent to that transcription shape; and whenever `txt` starts with "["
(including a genuine transcription that happens to open with a bracket) the
store is unchanged and, with delivery not raising, the only text sent is the
fixed could-not-understand apology. -/
theorem audio_bracket_transcription_c10 (env : Env) (phone aid mid : String)
    (m : InMessage) (s : Store) (bs : Bytes) (txt : String)
    (haid : m.audioId = some aid) (hne : aid ≠ "")
    (hdl : env.downloadResult = .ok (some bs)) (hbs : bs ≠ [])
    (hkey : env.groqKey = true)
    (htr : env.transcribeResult = .ok txt) :
    (chatCalls (process_message env phone m "audio" mid [] s).1 = []
      ↔ (txt = "" ∨ startsBracket txt = true))
    ∧ (startsBracket txt = true →
        (process_message env phone m "audio" mid [] s).2.1 = s
        ∧ (env.sendTextRaises 0 = false →
            sentTexts (process_message env phone m "audio" mid [] s).1
              = [(phone, "No pude entender tu mensaje de voz. ¿Podrías repetirlo?")])) := by
  by_cases hbr : txt = "" ∨ startsBracket txt = true
  · by_cases hs0 : env.sendTextRaises 0 <;>
      simp [process_message, process_message_body, audioPipeline, mark_as_read,
            download_media, transcribe_audio, send_whatsapp_message, strTruthy,
            bytesTruthy, bind_is_mBind, pure_is_mPure, mBind, mPure, haid, hne,
            hdl, hbs, hkey, htr, hs0, hbr, countSends, chatCalls, sentTexts]
  · push_neg at hbr
    obtain ⟨hne2, hbrf⟩ := hbr
    have hbrf2 : startsBracket txt = false := by
      revert hbrf; cases startsBracket txt <;> simp
    constructor
    · refine iff_of_false ?_ (by simp [hne2, hbrf2])
      cases hconn : env.redisConn
      · rcases hcr : env.chatResult with e0 | oc
        · have hbody : process_message_body env phone m "audio" mid [] s
              = ([Effect.markRead mid, Effect.downloadMedia aid, Effect.transcribeCall,
                  Effect.chatCall (Msg.mk "system" system_prompt :: ([] ++ [Msg.mk "user" txt]))],
                 s, Except.error e0) := by
            simp [process_message_body, audioPipeline, mark_as_read, download_media,
                  transcribe_audio, get_conversation_historyM, chat_completion,
                  strTruthy, bytesTruthy, bind_is_mBind, pure_is_mPure, mBind, mPure,
                  haid, hne, hdl, hbs, hkey, htr, hne2, hbrf2, hconn, hcr]
          apply chatCalls_ne_nil
            (Msg.mk "system" system_prompt :: ([] ++ [Msg.mk "user" txt]))
          apply mem_process_message
          rw [hbody]; simp
        · have hbody : process_message_body env phone m "audio" mid [] s
              = audioReply env phone txt []
                  (match oc with
                   | some content => content
                   | none => "Disculpa, tuve un problema. ¿Podrías repetir?")
                  [Effect.markRead mid, Effect.downloadMedia aid, Effect.transcribeCall,
                   Effect.chatCall (Msg.mk "system" system_prompt :: ([] ++ [Msg.mk "user" txt]))] s := by
            rcases oc with _ | c <;>
            simp [process_message_body, audioPipeline, mark_as_read, download_media,
                  transcribe_audio, get_conversation_historyM, chat_completion,
                  strTruthy, bytesTruthy, bind_is_mBind, pure_is_mPure, mBind, mPure,
                  haid, hne, hdl, hbs, hkey, htr, hne2, hbrf2, hconn, hcr]
          apply chatCalls_ne_nil
            (Msg.mk "system" system_prompt :: ([] ++ [Msg.mk "user" txt]))
          apply mem_process_message
          rw [hbody]
          apply keepsTrace_audioReply
          simp
      · rcases hcr : env.chatResult with e0 | oc
        · have hbody : process_message_body env phone m "audio" mid [] s
              = ([Effect.markRead mid, Effect.downloadMedia aid, Effect.transcribeCall,
                  Effect.redisGet ("conv:" ++ phone),
                  Effect.chatCall (Msg.mk "system" system_prompt ::
                    (get_conversation_history true env.redisGetRaises s phone ++ [Msg.mk "user" txt]))],
                 s, Except.error e0) := by
            simp [process_message_body, audioPipeline, mark_as_read, download_media,
                  transcribe_audio, get_conversation_historyM, chat_completion,
                  strTruthy, bytesTruthy, bind_is_mBind, pure_is_mPure, mBind, mPure,
                  haid, hne, hdl, hbs, hkey, htr, hne2, hbrf2, hconn, hcr]
          apply chatCalls_ne_nil
            (Msg.mk "system" system_prompt ::
              (get_conversation_history true env.redisGetRaises s phone ++ [Msg.mk "user" txt]))
          apply mem_process_message
          rw [hbody]; simp
        · have hbody : process_message_body env phone m "audio" mid [] s
              = audioReply env phone txt
                  (get_conversation_history true env.redisGetRaises s phone)
                  (match oc with
                   | some content => content
                   | none => "Disculpa, tuve un problema. ¿Podrías repetir?")
                  [Effect.markRead mid, Effect.downloadMedia aid, Effect.transcribeCall,
                   Effect.redisGet ("conv:" ++ phone),
                   Effect.chatCall (Msg.mk "system" system_prompt ::
                     (get_conversation_history true env.redisGetRaises s phone ++ [Msg.mk "user" txt]))] s := by
            rcases oc with _ | c <;>
            simp [process_message_body, audioPipeline, mark_as_read, download_media,
                  transcribe_audio, get_conversation_historyM, chat_completion,
                  strTruthy, bytesTruthy, bind_is_mBind, pure_is_mPure, mBind, mPure,
                  haid, hne, hdl, hbs, hkey, htr, hne2, hbrf2, hconn, hcr]
          apply chatCalls_ne_nil
            (Msg.mk "system" system_prompt ::
              (get_conversation_history true env.redisGetRaises s phone ++ [Msg.mk "user" txt]))
          apply mem_process_message
          rw [hbody]
          apply keepsTrace_audioReply
          simp
    · intro hbrt
      rw [hbrt] at hbrf2
      simp at hbrf2

/-- Witness for C10 at a concrete environment whose transcription is the
bracketed Whisper error placeholder. -/
theorem audio_bracket_transcription_c10_witness :
    (chatCalls (process_message envB "57300000" mA "audio" "wamid.10" [] sEmpty).1 = []
      ↔ ("[Error transcribiendo audio]" = ""
          ∨ startsBracket "[Error transcribiendo audio]" = true))
    ∧ (startsBracket "[Error transcribiendo audio]" = true →
        (process_message envB "57300000" mA "audio" "wamid.10" [] sEmpty).2.1 = sEmpty
        ∧ (envB.sendTextRaises 0 = false →
            sentTexts (process_message envB "57300000" mA "audio" "wamid.10" [] sEmpty).1
              = [("57300000", "No pude entender tu mensaje de voz. ¿Podrías repetirlo?")])) :=
  audio_bracket_transcription_c10 envB "57300000" "media9" "wamid.10" mA sEmpty
    [1] "[Error transcribiendo audio]" rfl (by decide) rfl (by decide) rfl rfl

end Loopera
